import Mathlib

/-!
Shallow embedding of the facette/logger package (backend.go, file.go,
logger.go and the errors file) and proofs of the specification claims.

Conventions of the embedding:
* Go machine state that the package touches is made explicit:
  `GlobalState` carries the package-global `fileLabels` table, and `FS` is
  an oracle for the out-of-scope file-system collaborators (`os.MkdirAll`
  succeeding on a directory, `os.OpenFile` with `O_APPEND|O_CREATE|O_WRONLY`
  succeeding on a path).
* `fmt.Sprintf(format, v...)` is modelled by the already-formatted message
  string: no claim exercises format verbs.
* A log call's denotation is the ordered list of per-backend emissions;
  timestamps are an explicit `Timestamp` argument rendered exactly as Go's
  `log.LstdFlags|log.Lmicroseconds` prefix renders them.
-/

namespace FLog

/-- Severity levels, from logger.go's iota block: `LevelError = 1` up to
`LevelDebug = 5` (numerically increasing with decreasing severity). -/
def levelError : Nat := 1

/-- Constant `LevelWarning` from logger.go. -/
def levelWarning : Nat := 2

/-- Constant `LevelNotice` from logger.go. -/
def levelNotice : Nat := 3

/-- Constant `LevelInfo` from logger.go. -/
def levelInfo : Nat := 4

/-- Constant `LevelDebug` from logger.go. -/
def levelDebug : Nat := 5

/-- logger.go's `levelMap`: name-to-level lookup table, as an association
list (the Go map has exactly these five distinct keys). -/
def levelMapL : List (String × Nat) :=
  [("error", levelError), ("warning", levelWarning), ("notice", levelNotice),
   ("info", levelInfo), ("debug", levelDebug)]

/-- Lookup in `levelMap`; a missing key yields `none` (Go: the two-result
form `level, ok := levelMap[name]` with `ok = false`). -/
def levelMapLookup (s : String) : Option Nat :=
  (levelMapL.find? (fun p => p.1 == s)).map (fun p => p.2)

/-- The five valid numeric levels. -/
def validLevels : List Nat :=
  [levelError, levelWarning, levelNotice, levelInfo, levelDebug]

/-- Reverse lookup of `levelMap`: the name of a numeric level (the keys of
the Go map, ranged over in `newFileBackend`). -/
def levelName (lvl : Nat) : String :=
  match (levelMapL.find? (fun p => p.2 == lvl)) with
  | some p => p.1
  | none => ""

/-- ASCII upper-casing of a character, as `strings.ToUpper` acts on the
five ASCII level names. -/
def charUpper (c : Char) : Char :=
  if 'a' ≤ c ∧ c ≤ 'z' then Char.ofNat (c.toNat - 32) else c

/-- Model of `strings.ToUpper` on the (ASCII) level names. -/
def goUpper (s : String) : String :=
  String.mk (s.data.map charUpper)

/-- file.go's `fileColors` map: level to ANSI color name. -/
def fileColors (lvl : Nat) : String :=
  if lvl == levelError then "red"
  else if lvl == levelWarning then "yellow"
  else if lvl == levelNotice then "magenta"
  else if lvl == levelInfo then "blue"
  else if lvl == levelDebug then "cyan"
  else ""

/-- Numeric ANSI foreground code of the color names used by `fileColors`.
Part of the model of the external mgutz/ansi library (out of scope per the
spec); only the shape of a colored label matters to the claims. -/
def ansiCode (c : String) : String :=
  if c == "red" then "31"
  else if c == "yellow" then "33"
  else if c == "magenta" then "35"
  else if c == "blue" then "34"
  else if c == "cyan" then "36"
  else "0"

/-- Model of the external `ansi.Color(s, color)`: wraps `s` in an ANSI
escape sequence. The essential facts for the claims are that a colored
label differs from the plain label and carries no colon suffix. -/
def ansiColor (s c : String) : String :=
  "\x1b[" ++ ansiCode c ++ "m" ++ s ++ "\x1b[0m"

/-- The package-global mutable state of file.go: the `fileLabels` map
shared by every file backend (`var fileLabels map[int]string`). A missing
key reads as `""` (Go map zero value). -/
structure GlobalState where
  labels : Nat → String

/-- The initial global state: `fileLabels` is nil, every lookup yields the
zero value `""`. -/
def st0 : GlobalState := ⟨fun _ => ""⟩

/-- The label table `newFileBackend` installs into the global `fileLabels`:
for each (name, level) of `levelMap`, the colorized upper-cased name when
`useColors`, otherwise the upper-cased name with a `":"` suffix. -/
def fileLabelsOf (useColors : Bool) : Nat → String := fun lvl =>
  match (levelMapL.find? (fun p => p.2 == lvl)) with
  | some p =>
      if useColors then ansiColor (goUpper p.1) (fileColors lvl)
      else goUpper p.1 ++ ":"
  | none => ""

/-- Where a file backend writes: `os.Stderr`, or an opened file. -/
inductive Output where
  | stderr : Output
  | file : String → Output
deriving DecidableEq

/-- Oracle for the out-of-scope file-system collaborators: `mkdirOk d`
says `os.MkdirAll(d, 0755)` succeeds, `openOk p` says
`os.OpenFile(p, O_APPEND|O_CREATE|O_WRONLY, 0644)` succeeds (opening for
append, creating the file if absent). -/
structure FS where
  mkdirOk : String → Bool
  openOk : String → Bool

/-- A file system on which every directory creation and file open
succeeds. -/
def fsAll : FS := ⟨fun _ => true, fun _ => true⟩

/-- Go's `path.Split(p)`: the directory part of `p`, everything up to and
including the final slash (empty when `p` has no slash). -/
def goPathDir (p : String) : String :=
  String.mk ((p.data.reverse.dropWhile (fun ch => ch ≠ '/')).reverse)

/-- Construction-time errors. `invalidLevel` and `unsupportedBackend` are
the package's exported error values (`ErrInvalidLevel` from the errors
file; `ErrUnsupportedBackend` is referenced by logger.go); the two
resource errors model the propagated `os.MkdirAll` / `os.OpenFile`
failures, tagged with the operand. -/
inductive Err where
  | invalidLevel : Err
  | unsupportedBackend : Err
  | mkdirFailed : String → Err
  | openFailed : String → Err
deriving DecidableEq

/-- file.go's `fileBackend`. The `writer` field is represented by the
`output` it targets; the `logger` back-pointer is never read by the
methods and is dropped. Note the struct stores no level. -/
structure FileBackend where
  output : Output
deriving DecidableEq

/-- Modelled from the spec: the file/console configuration object (its
declaration file is not among the sources). Per the spec it carries
`path` (empty or the sentinel `"-"` meaning stderr) and `level` (one of
the five level names). -/
structure FileConfig where
  Path : String
  Level : String
deriving DecidableEq

/-- Modelled from the spec: the system-log configuration object (its
declaration file is not among the sources): a facility/tag string and a
`level` name. -/
structure SyslogConfig where
  Tag : String
  Level : String
deriving DecidableEq

/-- Modelled from the spec: a syslog backend holds its configured numeric
threshold and tag (the transport itself is out of scope). -/
structure SyslogBackend where
  level : Nat
  tag : String
deriving DecidableEq

/-- file.go's `newFileBackend`: a non-empty, non-"-" path means create
parent directories, open the file for append (propagating either
failure), and install plain colon-suffixed labels; otherwise target
stderr and install colorized labels. The label table it installs is the
package-global `fileLabels`, hence the `GlobalState` result. Note the
config's level is never consulted. -/
def newFileBackend (fs : FS) (config : FileConfig) (st : GlobalState) :
    Except Err (FileBackend × GlobalState) :=
  if config.Path != "" && config.Path != "-" then
    let dirPath := goPathDir config.Path
    if fs.mkdirOk dirPath then
      if fs.openOk config.Path then
        Except.ok (⟨Output.file config.Path⟩, ⟨fileLabelsOf false⟩)
      else
        Except.error (Err.openFailed config.Path)
    else
      Except.error (Err.mkdirFailed dirPath)
  else
    Except.ok (⟨Output.stderr⟩, ⟨fileLabelsOf true⟩)

/-- Modelled from the spec: syslog backend construction (its source file
is not among the sources). The level name is resolved through the Level
Table, an unrecognized name failing with InvalidLevel; it does not touch
the file backends' label table. -/
def newSyslogBackend (fs : FS) (config : SyslogConfig) (st : GlobalState) :
    Except Err (SyslogBackend × GlobalState) :=
  match levelMapLookup config.Level with
  | none => Except.error Err.invalidLevel
  | some lvl => Except.ok (⟨lvl, config.Tag⟩, st)

/-- The `backend` interface of backend.go, as the closed set of its two
implementations. -/
inductive Backend where
  | file : FileBackend → Backend
  | syslog : SyslogBackend → Backend
deriving DecidableEq

/-- logger.go's `Logger`: the backend list and the context string (the
`sync` fields have no sequential denotation). -/
structure Logger where
  backends : List Backend
  context : String
deriving DecidableEq

/-- A backend configuration as passed to `NewLogger(configs
...interface{})`: a `FileConfig`, a `SyslogConfig`, or any other dynamic
type (the `default` case of the switch). -/
inductive Config where
  | file : FileConfig → Config
  | syslog : SyslogConfig → Config
  | other : Config
deriving DecidableEq

/-- One iteration of `NewLogger`'s switch: construct the backend matching
the configuration's type, or fail with `ErrUnsupportedBackend`. -/
def newBackend (fs : FS) (c : Config) (st : GlobalState) :
    Except Err (Backend × GlobalState) :=
  match c with
  | Config.file fc => (newFileBackend fs fc st).map (fun p => (Backend.file p.1, p.2))
  | Config.syslog sc => (newSyslogBackend fs sc st).map (fun p => (Backend.syslog p.1, p.2))
  | Config.other => Except.error Err.unsupportedBackend

/-- The `for _, config := range configs` loop of `NewLogger`, with the
accumulated backend list: the first construction error aborts the whole
construction. -/
def NLoop (fs : FS) : List Config → List Backend → GlobalState →
    Except Err (Logger × GlobalState)
  | [], acc, st => Except.ok ({backends := acc, context := ""}, st)
  | c :: cs, acc, st =>
    match newBackend fs c st with
    | Except.error e => Except.error e
    | Except.ok (b, st') => NLoop fs cs (acc ++ [b]) st'

/-- logger.go's `NewLogger`: one backend per configuration, fail-fast. -/
def NewLogger (fs : FS) (configs : List Config) (st : GlobalState) :
    Except Err (Logger × GlobalState) :=
  NLoop fs configs [] st

/-- logger.go's `Logger.Context`: a new `Logger` carrying the same
backend list (the very slice `l.backends`, not a copy) and the new
context string. -/
def Logger.Context (l : Logger) (context : String) : Logger :=
  {backends := l.backends, context := context}

/-- A timestamp as the `log` package renders it with
`log.LstdFlags|log.Lmicroseconds`. -/
structure Timestamp where
  year : Nat
  month : Nat
  day : Nat
  hour : Nat
  minute : Nat
  sec : Nat
  micro : Nat
deriving DecidableEq

/-- Zero-pad a number to a width, as the `log` package's `itoa` does. -/
def zeroPad (n w : Nat) : String :=
  let s := toString n
  if s.length < w then String.mk (List.replicate (w - s.length) '0') ++ s
  else s

/-- The `log.LstdFlags|log.Lmicroseconds` line header:
`YYYY/MM/DD hh:mm:ss.micros ` with a six-digit microsecond field. -/
def stamp (t : Timestamp) : String :=
  zeroPad t.year 4 ++ "/" ++ zeroPad t.month 2 ++ "/" ++ zeroPad t.day 2 ++ " " ++
  zeroPad t.hour 2 ++ ":" ++ zeroPad t.minute 2 ++ ":" ++ zeroPad t.sec 2 ++
  "." ++ zeroPad t.micro 6 ++ " "

/-- A fixed concrete timestamp for closed evaluations. -/
def t0 : Timestamp := ⟨2024, 1, 2, 3, 4, 5, 6⟩

/-- file.go's `fileBackend.Write`: the line the backend's `log.Logger`
appends to its output. The label comes from the package-global
`fileLabels` (the `GlobalState`), not from the backend; the message body
is `"label context: msg"` when the context is non-empty and
`"label msg"` otherwise; `log.Printf` prepends the timestamp header and
terminates the line. -/
def fileBackendWrite (st : GlobalState) (b : FileBackend) (t : Timestamp)
    (level : Nat) (context msg : String) : String :=
  if context != "" then
    stamp t ++ st.labels level ++ " " ++ context ++ ": " ++ msg ++ "\n"
  else
    stamp t ++ st.labels level ++ " " ++ msg ++ "\n"

/-- What a single backend emits for one call: a line appended to a file
backend's output, or a message handed to the syslog facility. -/
inductive Emission where
  | line : Output → String → Emission
  | syslogMsg : Nat → String → Emission
deriving DecidableEq

/-- Modelled from the spec: the syslog severity mapped from the Level
Table (standard syslog priorities). -/
def syslogSeverity (lvl : Nat) : Nat :=
  if lvl == levelError then 3
  else if lvl == levelWarning then 4
  else if lvl == levelNotice then 5
  else if lvl == levelInfo then 6
  else 7

/-- Modelled from the spec: the syslog backend forwards the formatted
message, tagged with the context when non-empty, at the mapped severity;
it is a no-op when the level exceeds its configured threshold. -/
def syslogBackendWrite (b : SyslogBackend) (level : Nat) (context msg : String) :
    Option Emission :=
  if level > b.level then none
  else if context != "" then some (Emission.syslogMsg (syslogSeverity level) (context ++ ": " ++ msg))
  else some (Emission.syslogMsg (syslogSeverity level) msg)

/-- Dispatch of `backend.Write` over the two implementations; `none`
means the call emitted nothing. -/
def Backend.write (st : GlobalState) (t : Timestamp) (b : Backend)
    (level : Nat) (context msg : String) : Option Emission :=
  match b with
  | Backend.file fb => some (Emission.line fb.output (fileBackendWrite st fb t level context msg))
  | Backend.syslog sb => syslogBackendWrite sb level context msg

/-- Sequential denotation of logger.go's `Logger.write`: every backend in
the list receives the call with the logger's context; the result is the
ordered list of what each backend emitted. -/
def Logger.write (st : GlobalState) (t : Timestamp) (l : Logger)
    (level : Nat) (msg : String) : List (Option Emission) :=
  l.backends.map (fun b => Backend.write st t b level l.context msg)

/-- Whether a label string carries a `":"` suffix. -/
def labelHasColon (s : String) : Bool :=
  s.data.getLast? == some ':'

/-- Outcome of the underlying stream operation (`*os.File` write, syslog
send): success or an I/O error such as a full disk or broken pipe. -/
inductive WriteOutcome where
  | ok : WriteOutcome
  | ioFail : String → WriteOutcome
deriving DecidableEq

/-- Oracle for the out-of-scope stream layer: what the raw write to each
output returns. `log.Logger.Printf` receives and discards this value. -/
structure WriteEnv where
  fileRes : Output → WriteOutcome
  syslogRes : WriteOutcome

/-- The discarded low-level result of one backend's emission (`Except.ok`
when the backend emitted nothing). -/
def emissionRes (env : WriteEnv) : Option Emission → WriteOutcome
  | some (Emission.line out _) => env.fileRes out
  | some (Emission.syslogMsg _ _) => env.syslogRes
  | none => WriteOutcome.ok

/-- The low-level outcomes of one `Logger.write` fan-out, one per
backend. None of them reaches the caller: `backend.Write` returns
nothing (backend.go) and `Logger.write` returns nothing (logger.go). -/
def Logger.writeRes (env : WriteEnv) (st : GlobalState) (t : Timestamp)
    (l : Logger) (level : Nat) (msg : String) : List WriteOutcome :=
  (Logger.write st t l level msg).map (emissionRes env)

/-- logger.go's `Logger.Error`: calls `l.write(LevelError, ...)` and
returns the receiver. The second component materializes the low-level
outcomes the call discarded. -/
def Logger.Error (env : WriteEnv) (st : GlobalState) (t : Timestamp)
    (l : Logger) (msg : String) : Logger × List WriteOutcome :=
  (l, Logger.writeRes env st t l levelError msg)

/-- logger.go's `Logger.Warning`. -/
def Logger.Warning (env : WriteEnv) (st : GlobalState) (t : Timestamp)
    (l : Logger) (msg : String) : Logger × List WriteOutcome :=
  (l, Logger.writeRes env st t l levelWarning msg)

/-- logger.go's `Logger.Notice`. -/
def Logger.Notice (env : WriteEnv) (st : GlobalState) (t : Timestamp)
    (l : Logger) (msg : String) : Logger × List WriteOutcome :=
  (l, Logger.writeRes env st t l levelNotice msg)

/-- logger.go's `Logger.Info`. -/
def Logger.Info (env : WriteEnv) (st : GlobalState) (t : Timestamp)
    (l : Logger) (msg : String) : Logger × List WriteOutcome :=
  (l, Logger.writeRes env st t l levelInfo msg)

/-- logger.go's `Logger.Debug`. -/
def Logger.Debug (env : WriteEnv) (st : GlobalState) (t : Timestamp)
    (l : Logger) (msg : String) : Logger × List WriteOutcome :=
  (l, Logger.writeRes env st t l levelDebug msg)

/-- The resource released by closing one backend. -/
inductive CloseAction where
  | closeFile : Output → CloseAction
  | closeSyslog : String → CloseAction
deriving DecidableEq

/-- Dispatch of `backend.Close` over the two implementations: file.go's
`fileBackend.Close` calls `b.output.Close()` (discarding its error — an
`*os.File.Close`, which reports at worst an error value and cannot
panic, also on the shared stderr stream); the syslog variant releases
its connection (modelled from the spec). -/
def Backend.close : Backend → CloseAction
  | Backend.file fb => CloseAction.closeFile fb.output
  | Backend.syslog sb => CloseAction.closeSyslog sb.tag

/-- The `for _, b := range l.backends` loop of logger.go's
`Logger.Close`. -/
def closeLoop : List Backend → List CloseAction
  | [] => []
  | b :: bs => Backend.close b :: closeLoop bs

/-- logger.go's `Logger.Close`: closes every backend in turn. -/
def Logger.Close (l : Logger) : List CloseAction :=
  closeLoop l.backends

/-! ## Helper lemmas -/

/-- The construction loop processes an appended configuration list by
first processing the prefix and continuing from its result. -/
theorem NLoop_append (fs : FS) (xs ys : List Config) (acc : List Backend)
    (st : GlobalState) :
    NLoop fs (xs ++ ys) acc st =
      match NLoop fs xs acc st with
      | Except.error e => Except.error e
      | Except.ok p => NLoop fs ys p.1.backends p.2 := by
  induction xs generalizing acc st with
  | nil => simp [NLoop]
  | cons c cs ih =>
    simp only [List.cons_append, NLoop]
    cases newBackend fs c st with
    | error e => rfl
    | ok p => exact ih (acc ++ [p.1]) p.2

/-- Lemma: `closeLoop` visits the list in order, one action per backend. -/
theorem closeLoop_eq_map (bs : List Backend) :
    closeLoop bs = bs.map Backend.close := by
  induction bs with
  | nil => rfl
  | cons b bs ih => simp [closeLoop, ih]

/-! ## Claims -/

/-- C1: the claim says a message at level L is emitted by a backend iff
L's rank is at most the backend's configured threshold rank, and in
particular a console backend configured at level "warning" emits nothing
for a Debug call. The code does not implement any threshold: the file
backend stores no level, `fileBackend.Write` has no level guard, and
`newFileBackend` never reads the configuration's level. Evaluating the
code at the claim's own example: constructing with path `"-"` and level
`"warning"` succeeds, and a Debug call then emits a full console line. -/
theorem debug_emitted_despite_warning_level :
    NewLogger fsAll [Config.file ⟨"-", "warning"⟩] st0
      = Except.ok ({backends := [Backend.file ⟨Output.stderr⟩], context := ""},
          ⟨fileLabelsOf true⟩)
    ∧ Logger.write ⟨fileLabelsOf true⟩ t0
        {backends := [Backend.file ⟨Output.stderr⟩], context := ""} levelDebug "x"
      = [some (Emission.line Output.stderr
          (stamp t0 ++ ansiColor "DEBUG" "cyan" ++ " x\n"))] :=
  ⟨rfl, by decide⟩

/-- C2: the claim says an invalid level name in a backend configuration
makes construction fail with the InvalidLevel error. The code never
validates the file configuration's level (`newFileBackend` ignores it and
the package's `ErrInvalidLevel` value is never used): constructing with
the unrecognized level name "bogus" succeeds and returns a Logger, even
though "bogus" is not a key of the code's own `levelMap`. -/
theorem invalid_level_name_accepted :
    NewLogger fsAll [Config.file ⟨"-", "bogus"⟩] st0
      = Except.ok ({backends := [Backend.file ⟨Output.stderr⟩], context := ""},
          ⟨fileLabelsOf true⟩)
    ∧ levelMapLookup "bogus" = none :=
  ⟨rfl, by decide⟩

/-- C3: a configuration of unrecognized type makes construction fail with
`ErrUnsupportedBackend`, and any single backend construction failure
makes `NewLogger` return that error and no Logger (fail-fast): after any
successfully processed prefix, an unrecognized configuration aborts with
`ErrUnsupportedBackend`, and any configuration whose backend constructor
fails aborts with its error. -/
theorem newLogger_unsupported_failfast (fs : FS) (st stp : GlobalState)
    (pre rest : List Config) (lp : Logger)
    (hpre : NewLogger fs pre st = Except.ok (lp, stp)) :
    NewLogger fs (pre ++ Config.other :: rest) st
      = Except.error Err.unsupportedBackend
    ∧ (∀ c cs e, newBackend fs c stp = Except.error e →
        NewLogger fs (pre ++ c :: cs) st = Except.error e) := by
  unfold NewLogger at hpre ⊢
  constructor
  · rw [NLoop_append, hpre]
    simp [NLoop, newBackend]
  · intro c cs e hc
    rw [NLoop_append, hpre]
    simp [NLoop, hc]

/-- Witness for C3 at a concrete input: an empty prefix (which trivially
constructs successfully) followed by an unrecognized configuration. -/
theorem newLogger_unsupported_failfast_w :
    NewLogger fsAll ([] ++ Config.other :: []) st0
      = Except.error Err.unsupportedBackend :=
  (newLogger_unsupported_failfast fsAll st0 st0 [] []
    {backends := [], context := ""} rfl).1

/-- C4: deriving a context logger yields a new `Logger` whose backend
list is the original's own list (`Logger.Context` copies the slice value,
sharing the backends) and whose context is the given string; the original
value is untouched (the operation is a pure constructor call in the code,
mutating nothing), so the derived logger's messages carry the new context
while the original's keep carrying its old one. -/
theorem context_clone_shares_backends (l : Logger) (ctx : String) :
    (l.Context ctx).backends = l.backends
    ∧ (l.Context ctx).context = ctx
    ∧ (∀ st t lvl msg,
        Logger.write st t (l.Context ctx) lvl msg
          = l.backends.map (fun b => Backend.write st t b lvl ctx msg)
        ∧ Logger.write st t l lvl msg
          = l.backends.map (fun b => Backend.write st t b lvl l.context msg)) :=
  ⟨rfl, rfl, fun _ _ _ _ => ⟨rfl, rfl⟩⟩

/-- The five label equations, for both label styles: the colorized
upper-cased name, and the plain upper-cased name with a colon suffix. -/
theorem fileLabelsOf_eq (lvl : Nat) (h : lvl ∈ validLevels) :
    fileLabelsOf true lvl = ansiColor (goUpper (levelName lvl)) (fileColors lvl)
    ∧ fileLabelsOf false lvl = goUpper (levelName lvl) ++ ":" := by
  have h5 : lvl = levelError ∨ lvl = levelWarning ∨ lvl = levelNotice
      ∨ lvl = levelInfo ∨ lvl = levelDebug := by
    simpa [validLevels] using h
  rcases h5 with h1 | h1 | h1 | h1 | h1 <;> subst h1 <;> exact ⟨by decide, by decide⟩

/-- C5: a file/console configuration with an empty or `"-"` path yields a
backend on standard error with the color-coded label table; any other
path has its parent directory created (a failure aborting construction
with that error), the file opened for append/create (a failure aborting
with that error), and yields a backend on that file with the plain
colon-suffixed label table. -/
theorem file_backend_output_and_labels (fs : FS) (c : FileConfig)
    (st : GlobalState) :
    ((c.Path = "" ∨ c.Path = "-") →
        newFileBackend fs c st = Except.ok (⟨Output.stderr⟩, ⟨fileLabelsOf true⟩)
      ∧ ∀ lvl, lvl ∈ validLevels →
          fileLabelsOf true lvl = ansiColor (goUpper (levelName lvl)) (fileColors lvl))
    ∧ ((c.Path ≠ "" ∧ c.Path ≠ "-") →
        (fs.mkdirOk (goPathDir c.Path) = true → fs.openOk c.Path = true →
            newFileBackend fs c st
              = Except.ok (⟨Output.file c.Path⟩, ⟨fileLabelsOf false⟩)
          ∧ ∀ lvl, lvl ∈ validLevels →
              fileLabelsOf false lvl = goUpper (levelName lvl) ++ ":")
        ∧ (fs.mkdirOk (goPathDir c.Path) = false →
            newFileBackend fs c st = Except.error (Err.mkdirFailed (goPathDir c.Path)))
        ∧ (fs.mkdirOk (goPathDir c.Path) = true → fs.openOk c.Path = false →
            newFileBackend fs c st = Except.error (Err.openFailed c.Path))) := by
  constructor
  · intro h
    have hcond : (c.Path != "" && c.Path != "-") = false := by
      rcases h with h | h <;> rw [h] <;> decide
    exact ⟨by simp [newFileBackend, hcond], fun lvl hl => (fileLabelsOf_eq lvl hl).1⟩
  · intro h
    have hcond : (c.Path != "" && c.Path != "-") = true := by
      simp [h.1, h.2]
    refine ⟨fun hm ho => ⟨?_, fun lvl hl => (fileLabelsOf_eq lvl hl).2⟩,
      fun hm => ?_, fun hm ho => ?_⟩
    · simp [newFileBackend, hcond, hm, ho]
    · simp [newFileBackend, hcond, hm]
    · simp [newFileBackend, hcond, hm, ho]

/-- Witness for C5 at concrete inputs: the sentinel path `"-"` targets
stderr with colored labels, and the path `"a/b.log"` (directory creation
and file open succeeding) targets the file with plain labels. -/
theorem file_backend_output_and_labels_w :
    newFileBackend fsAll ⟨"-", "warning"⟩ st0
      = Except.ok (⟨Output.stderr⟩, ⟨fileLabelsOf true⟩)
    ∧ newFileBackend fsAll ⟨"a/b.log", "info"⟩ st0
      = Except.ok (⟨Output.file "a/b.log"⟩, ⟨fileLabelsOf false⟩) :=
  ⟨((file_backend_output_and_labels fsAll ⟨"-", "warning"⟩ st0).1 (Or.inr rfl)).1,
   (((file_backend_output_and_labels fsAll ⟨"a/b.log", "info"⟩ st0).2
      ⟨by decide, by decide⟩).1 rfl rfl).1⟩

/-- C6 (amended): every line the file backend writes has the form
`TIMESTAMP LABEL [CONTEXT: ]message`, the `CONTEXT: ` part present
exactly when the context is non-empty, and the timestamp carrying the
six-digit microsecond field; but the label style is read from the
package-global table, so the label carries a colon suffix exactly when
the most recently constructed file backend targets a file (`uc = false`),
not necessarily when this backend writes to a file. -/
theorem file_write_line_format (uc : Bool) (fb : FileBackend) (t : Timestamp)
    (lvl : Nat) (ctx msg : String) (hlvl : lvl ∈ validLevels) :
    fileBackendWrite ⟨fileLabelsOf uc⟩ fb t lvl ctx msg
      = stamp t ++ (fileLabelsOf uc lvl ++ (" " ++
          ((if ctx != "" then ctx ++ ": " else "") ++ (msg ++ "\n"))))
    ∧ labelHasColon (fileLabelsOf uc lvl) = !uc
    ∧ ∃ d, stamp t = d ++ "." ++ zeroPad t.micro 6 ++ " " := by
  refine ⟨?_, ?_, ?_⟩
  · cases hc : (ctx != "") with
    | true => simp [fileBackendWrite, hc, String.append_assoc]
    | false => simp [fileBackendWrite, hc, String.append_assoc]
  · have h5 : lvl = levelError ∨ lvl = levelWarning ∨ lvl = levelNotice
        ∨ lvl = levelInfo ∨ lvl = levelDebug := by
      simpa [validLevels] using hlvl
    cases uc <;> rcases h5 with h1 | h1 | h1 | h1 | h1 <;> subst h1 <;> decide
  · exact ⟨zeroPad t.year 4 ++ "/" ++ zeroPad t.month 2 ++ "/" ++ zeroPad t.day 2
      ++ " " ++ zeroPad t.hour 2 ++ ":" ++ zeroPad t.minute 2 ++ ":"
      ++ zeroPad t.sec 2, rfl⟩

/-- Witness for C6's amended theorem at a concrete input: after a
file-targeting construction (`uc = false`) the Error label carries the
colon suffix. -/
theorem file_write_line_format_w :
    labelHasColon (fileLabelsOf false levelError) = !false :=
  (file_write_line_format false ⟨Output.file "a"⟩ t0 levelError "c" "m"
    (by decide)).2.1

/-- Counterexample to C6 as stated: construct a backend on the file
`"a/b.log"` and then a console backend; the resulting global label table
is the colorized one, so a write by the file-targeting backend — a write
going to a file — uses the colorized Error label, which carries no colon
suffix. -/
theorem file_label_without_colon_after_console :
    NewLogger fsAll [Config.file ⟨"a/b.log", "info"⟩, Config.file ⟨"-", "info"⟩] st0
      = Except.ok ({backends := [Backend.file ⟨Output.file "a/b.log"⟩,
          Backend.file ⟨Output.stderr⟩], context := ""}, ⟨fileLabelsOf true⟩)
    ∧ fileBackendWrite ⟨fileLabelsOf true⟩ ⟨Output.file "a/b.log"⟩ t0 levelError "" "m"
      = stamp t0 ++ ansiColor "ERROR" "red" ++ " m\n"
    ∧ labelHasColon (ansiColor "ERROR" "red") = false :=
  ⟨rfl, by decide, by decide⟩

/-- C7: once constructed, no leveled call fails: each of the five leveled
methods returns its receiver, for every logger, message, timestamp and
label state, and whatever outcomes (success or I/O error) the underlying
stream operations produce — the outcomes are discarded inside the
backends and never reach the caller, as no error channel exists in any
signature on the path (`Logger.Error ... → Logger.write → backend.Write`,
all returning nothing). -/
theorem leveled_calls_never_fail (env env' : WriteEnv) (st : GlobalState)
    (t : Timestamp) (l : Logger) (msg : String) :
    ((Logger.Error env st t l msg).1 = l
      ∧ (Logger.Error env st t l msg).1 = (Logger.Error env' st t l msg).1)
    ∧ ((Logger.Warning env st t l msg).1 = l
      ∧ (Logger.Warning env st t l msg).1 = (Logger.Warning env' st t l msg).1)
    ∧ ((Logger.Notice env st t l msg).1 = l
      ∧ (Logger.Notice env st t l msg).1 = (Logger.Notice env' st t l msg).1)
    ∧ ((Logger.Info env st t l msg).1 = l
      ∧ (Logger.Info env st t l msg).1 = (Logger.Info env' st t l msg).1)
    ∧ ((Logger.Debug env st t l msg).1 = l
      ∧ (Logger.Debug env st t l msg).1 = (Logger.Debug env' st t l msg).1) :=
  ⟨⟨rfl, rfl⟩, ⟨rfl, rfl⟩, ⟨rfl, rfl⟩, ⟨rfl, rfl⟩, ⟨rfl, rfl⟩⟩

/-- C9: `Logger.Close` closes every backend in list order — its action
trace is exactly the per-backend close of the backend list, position by
position — and closing is total also for a file backend whose output
resource is the shared standard-error stream (Go's `*os.File.Close`
reports at worst an error value, which `fileBackend.Close` discards). -/
theorem close_every_backend_in_order (l : Logger) :
    Logger.Close l = l.backends.map Backend.close
    ∧ (∀ i : Nat, (Logger.Close l)[i]? = (l.backends[i]?).map Backend.close)
    ∧ Backend.close (Backend.file ⟨Output.stderr⟩)
      = CloseAction.closeFile Output.stderr := by
  refine ⟨closeLoop_eq_map l.backends, fun i => ?_, rfl⟩
  simp [Logger.Close, closeLoop_eq_map, List.getElem?_map]

/-- The final label-table state a successful file backend construction
leaves behind, as a function of its own configured path. -/
theorem newFileBackend_ok_state (fs : FS) (c : FileConfig)
    (st st' : GlobalState) (b : FileBackend)
    (h : newFileBackend fs c st = Except.ok (b, st')) :
    st' = ⟨fileLabelsOf (!(c.Path != "" && c.Path != "-"))⟩ := by
  cases hc : (c.Path != "" && c.Path != "-") with
  | false =>
    simp [newFileBackend, hc] at h
    exact h.2.symm
  | true =>
    cases hm : fs.mkdirOk (goPathDir c.Path) with
    | false => simp [newFileBackend, hc, hm] at h
    | true =>
      cases ho : fs.openOk c.Path with
      | false => simp [newFileBackend, hc, hm, ho] at h
      | true =>
        simp [newFileBackend, hc, hm, ho] at h
        exact h.2.symm

/-- C10: the label table is package-global: after constructing two file
backends in sequence, the state's labels are those determined by the
second configuration's target; both backends' subsequent writes (which
read only the global table) produce identical lines in that state; and
when the two configurations target different kinds of output, the labels
in force are not the ones the first backend's own configuration would
prescribe. -/
theorem labels_follow_last_constructed (fs : FS) (c1 c2 : FileConfig)
    (st st1 st2 : GlobalState) (b1 b2 : FileBackend)
    (h1 : newFileBackend fs c1 st = Except.ok (b1, st1))
    (h2 : newFileBackend fs c2 st1 = Except.ok (b2, st2)) :
    st2 = ⟨fileLabelsOf (!(c2.Path != "" && c2.Path != "-"))⟩
    ∧ (∀ t lvl ctx msg,
        fileBackendWrite st2 b1 t lvl ctx msg = fileBackendWrite st2 b2 t lvl ctx msg)
    ∧ ((c1.Path != "" && c1.Path != "-") ≠ (c2.Path != "" && c2.Path != "-") →
        st2.labels levelError
          ≠ fileLabelsOf (!(c1.Path != "" && c1.Path != "-")) levelError) := by
  have hs2 := newFileBackend_ok_state fs c2 st1 st2 b2 h2
  refine ⟨hs2, fun t lvl ctx msg => rfl, fun hne => ?_⟩
  rw [hs2]
  cases hc1 : (c1.Path != "" && c1.Path != "-") <;>
    cases hc2 : (c2.Path != "" && c2.Path != "-") <;>
    rw [hc1, hc2] at hne <;>
    first
      | exact absurd rfl hne
      | decide

/-- Witness for C10 at concrete inputs: after constructing a backend on
the file `"a/b.log"` and then a console backend, the labels in force are
not the plain colon-suffixed ones the file backend's own configuration
prescribes. -/
theorem labels_follow_last_constructed_w :
    (⟨fileLabelsOf true⟩ : GlobalState).labels levelError
      ≠ fileLabelsOf (!("a/b.log" != "" && "a/b.log" != "-")) levelError :=
  (labels_follow_last_constructed fsAll ⟨"a/b.log", "info"⟩ ⟨"-", "info"⟩ st0
    ⟨fileLabelsOf false⟩ ⟨fileLabelsOf true⟩ ⟨Output.file "a/b.log"⟩
    ⟨Output.stderr⟩ rfl rfl).2.2 (by decide)

end FLog
